import Mathlib

/-!
Verification of the BLE session state machine, connection orchestration,
forwarding pipeline, scan policy and relay endpoint of the lura-bletest
repository, shallowly embedded in Lean 4.

The embedding follows `src/state/BleStateMachine.ts`, the `useBleApp` hook,
`src/services/BleService.ts` and `server.js`.  Platform builtins that the
code calls (the JavaScript `Number()` coercion, `Date.now()`, the HTTP
response outcome, the BLE read/connect outcomes) enter as explicit
parameters or as small executable models.
-/

namespace BleApp

/-- The three states of the session state machine
(`BleAppState` in BleStateMachine.ts):
`scanning-no-paired`, `scanning-for-paired`, `connected`. -/
inductive BleAppState where
  | scanningNoPaired
  | scanningForPaired
  | connected
deriving DecidableEq, Repr

/-- Model of the transport library's `Device` object; the state machine
reads only its `id` field. -/
structure Device where
  id : String
deriving DecidableEq, Repr

/-- `ScanResult` from BleService.ts: the projection of a discovered device
surfaced to the discovery callback. -/
structure ScanResult where
  id : String
  name : Option String
  rssi : Option Int
  isConnectable : Option Bool
deriving DecidableEq, Repr

/-- `BleAppContext` from BleStateMachine.ts: the whole application context. -/
structure BleAppContext where
  state : BleAppState
  devices : List ScanResult
  connectedDevice : Option Device
  pairedDeviceId : Option String
  numberStream : List String
deriving DecidableEq, Repr

/-- `createInitialContext`: initial context of the machine. -/
def createInitialContext : BleAppContext :=
  { state := .scanningNoPaired
    devices := []
    connectedDevice := none
    pairedDeviceId := none
    numberStream := [] }

/-- `addDeviceToList`: in `scanning-no-paired`, append a newly discovered
device unless one with the same id is already listed; otherwise no-op. -/
def addDeviceToList (context : BleAppContext) (device : ScanResult) : BleAppContext :=
  if context.state ≠ .scanningNoPaired then context
  else if (context.devices.find? (fun d => d.id = device.id)).isSome then context
  else { context with devices := context.devices ++ [device] }

/-- `transitionToScanningForPaired`: save a paired device id and move to
`scanning-for-paired`. -/
def transitionToScanningForPaired (context : BleAppContext)
    (pairedDeviceId : String) : BleAppContext :=
  { context with state := .scanningForPaired, pairedDeviceId := some pairedDeviceId }

/-- `transitionToConnected`: paired device found and connected; stores the
device, records its id as paired, and clears the device list. -/
def transitionToConnected (context : BleAppContext) (device : Device) : BleAppContext :=
  { context with
      state := .connected
      connectedDevice := some device
      pairedDeviceId := some device.id
      devices := [] }

/-- `transitionToScanningNoPaired`: clear the paired device and the device
list, back to open scanning. -/
def transitionToScanningNoPaired (context : BleAppContext) : BleAppContext :=
  { context with state := .scanningNoPaired, pairedDeviceId := none, devices := [] }

/-- `transitionToScanningForPairedOnDisconnect`: involuntary disconnect;
keep `pairedDeviceId` for auto-reconnect, drop the session and the stream. -/
def transitionToScanningForPairedOnDisconnect (context : BleAppContext) : BleAppContext :=
  { context with
      state := .scanningForPaired
      connectedDevice := none
      numberStream := [] }

/-- `transitionToScanningNoPairedOnDisconnect`: manual disconnect; clear
`pairedDeviceId`, the session and the stream. -/
def transitionToScanningNoPairedOnDisconnect (context : BleAppContext) : BleAppContext :=
  { context with
      state := .scanningNoPaired
      connectedDevice := none
      pairedDeviceId := none
      numberStream := [] }

/-- `addNumberToStream`: only in `connected`, prepend the value and keep the
newest 50 entries. -/
def addNumberToStream (context : BleAppContext) (number : String) : BleAppContext :=
  if context.state ≠ .connected then context
  else { context with numberStream := (number :: context.numberStream).take 50 }

/-- `clearDeviceList`: clear the visible device list, only while in
`scanning-no-paired`. -/
def clearDeviceList (context : BleAppContext) : BleAppContext :=
  if context.state ≠ .scanningNoPaired then context
  else { context with devices := [] }

/-- Action requested by the discovery callback: either nothing, or stop the
scan and schedule an auto-connect to the given device id. -/
inductive ScanAction where
  | noAction
  | stopScanAndConnect (id : String)
deriving DecidableEq, Repr

/-- `handleDeviceFound` from the `useBleApp` hook: in `scanning-for-paired`
a discovery matching `pairedDeviceId` stops the scan and schedules a
connect (unless one is already in flight); in `scanning-no-paired` the
device is added to the list; any other discovery is ignored. -/
def handleDeviceFound (prev : BleAppContext) (isConnecting : Bool)
    (device : ScanResult) : BleAppContext × ScanAction :=
  if prev.state = .scanningForPaired ∧ prev.pairedDeviceId = some device.id then
    if isConnecting then (prev, .noAction)
    else (prev, .stopScanAndConnect device.id)
  else if prev.state = .scanningNoPaired then
    (addDeviceToList prev device, .noAction)
  else (prev, .noAction)

/-- A JavaScript whitespace character, as stripped by `Number()` coercion. -/
def isJsWhitespace (c : Char) : Bool :=
  c = ' ' ∨ c = '\t' ∨ c = '\n' ∨ c = '\r'

/-- Strip leading and trailing whitespace from a character list. -/
def trimChars (cs : List Char) : List Char :=
  ((cs.dropWhile isJsWhitespace).reverse.dropWhile isJsWhitespace).reverse

/-- Read a non-empty all-digit character list as a natural number. -/
def digitsToNat : List Char → Option Nat
  | [] => none
  | cs => cs.foldl (fun acc c =>
      match acc with
      | none => none
      | some n => if c.isDigit then some (n * 10 + (c.toNat - 48)) else none)
      (some 0)

/-- Model of the JavaScript `Number()` string coercion, restricted to the
integer tokens the devices emit: optional sign and decimal digits after
trimming; the empty/blank string coerces to 0; anything else is NaN
(`none`). -/
def jsStringToNumber (s : String) : Option Int :=
  match trimChars s.data with
  | [] => some 0
  | '-' :: rest => (digitsToNat rest).map (fun n => -(n : Int))
  | '+' :: rest => (digitsToNat rest).map (fun n => (n : Int))
  | t => (digitsToNat t).map (fun n => (n : Int))

/-- The forwarding throttle clock: `lastPacketSentTimeRef` in `useBleApp`. -/
structure ThrottleState where
  lastPacketSentTime : Int
deriving DecidableEq, Repr

/-- `forwardNumberToNgrok` from `useBleApp`: given the current clock `now`
(`Date.now()`), the configured endpoint, the decoded value and whether the
HTTP response came back ok, returns the new throttle state and the number
POSTed to `<ngrokUrl>/number` (`none` when no POST was issued).  The send
happens only when strictly more than 1000 ms elapsed since the last sent
packet and an endpoint is configured; a non-numeric value is abandoned; the
clock advances only on an ok response. -/
def forwardNumberToNgrok (st : ThrottleState) (now : Int)
    (ngrokUrl : Option String) (value : String) (responseOk : Bool) :
    ThrottleState × Option Int :=
  let timeSinceLastPacket := now - st.lastPacketSentTime
  if 1000 < timeSinceLastPacket ∧ ngrokUrl ≠ none then
    match jsStringToNumber value with
    | none => (st, none)
    | some num => if responseOk then (⟨now⟩, some num) else (st, some num)
  else (st, none)

/-- The notification callback installed by `startMonitoringNotifications`:
push the decoded value into the stream and invoke the forwarder.  Returns
the updated context, the updated throttle state, and the POSTed number if
any. -/
def onNotificationValue (ctx : BleAppContext) (st : ThrottleState) (now : Int)
    (ngrokUrl : Option String) (value : String) (responseOk : Bool) :
    BleAppContext × ThrottleState × Option Int :=
  let ctx2 := addNumberToStream ctx value
  let fwd := forwardNumberToNgrok st now ngrokUrl value responseOk
  (ctx2, fwd.1, fwd.2)

/-- Outcome of one pairing-verification read (`readCharacteristic`):
success, a failure whose message names authentication/authorization
("authorization pending"), or any other failure. -/
inductive ReadOutcome where
  | success
  | authPending
  | otherError
deriving DecidableEq, Repr

/-- Result of the `tryStartMonitoring` loop: how many verification reads
were performed, the total milliseconds of scheduled retry delays, whether
notification monitoring was started, and whether an error was surfaced. -/
structure MonitorStart where
  readAttempts : Nat
  retryDelayTotalMs : Nat
  monitoringStarted : Bool
  errorSurfaced : Bool
deriving DecidableEq, Repr

/-- `tryStartMonitoring` from `handleConnect` in `useBleApp`: read the
characteristic; on success start monitoring; on an authorization-pending
failure with `retryCount < 10` retry after 500 ms; on any other failure, or
once retries are exhausted, start monitoring anyway.  `outcomes i` is the
result of the read performed at retry count `i`. -/
def tryStartMonitoring (outcomes : Nat → ReadOutcome) (retryCount : Nat) :
    MonitorStart :=
  match outcomes retryCount with
  | .success => ⟨retryCount + 1, 500 * retryCount, true, false⟩
  | .authPending =>
      if h : retryCount < 10 then tryStartMonitoring outcomes (retryCount + 1)
      else ⟨retryCount + 1, 500 * retryCount, true, false⟩
  | .otherError => ⟨retryCount + 1, 500 * retryCount, true, false⟩
termination_by 10 - retryCount
decreasing_by omega

/-- Outcome of one full connect sequence (`connectToDevice` plus service
discovery), classified the way `handleConnect` inspects the thrown error. -/
inductive ConnectOutcome where
  | success
  | cancelled
  | pairingMismatch
  | authError
  | otherError
deriving DecidableEq, Repr

/-- The alert `handleConnect` surfaces to the user, if any. -/
inductive SurfacedAlert where
  | noAlert
  | pairingMismatchAlert
  | pairingRequiredAlert
  | connectionErrorAlert
deriving DecidableEq, Repr

/-- Result of a caller-initiated `handleConnect`: how many connect
sequences ran, whether local connection state was cleared before a retry,
the settle delay waited before the retry, whether a session was
established, and the surfaced alert. -/
structure HandleConnectResult where
  connectAttempts : Nat
  clearedStateBeforeRetry : Bool
  settleWaitMs : Nat
  connected : Bool
  alert : SurfacedAlert
deriving DecidableEq, Repr

/-- The `isRetry = true` invocation of `handleConnect`: clear the device's
connection state, wait 1000 ms, run the connect sequence once; a further
pairing mismatch is no longer retried automatically but surfaced with the
remediation alert offering a manual retry. -/
def handleConnectRetry (o : ConnectOutcome) : HandleConnectResult :=
  match o with
  | .success => ⟨1, true, 1000, true, .noAlert⟩
  | .cancelled => ⟨1, true, 1000, false, .noAlert⟩
  | .pairingMismatch => ⟨1, true, 1000, false, .pairingMismatchAlert⟩
  | .authError => ⟨1, true, 1000, false, .pairingRequiredAlert⟩
  | .otherError => ⟨1, true, 1000, false, .connectionErrorAlert⟩

/-- A caller-initiated `handleConnect` (`isRetry = false`): run the connect
sequence; on a pairing-mismatch failure delegate once to the retry
invocation; `o1` and `o2` are the outcomes of the first and (if reached)
second connect sequence. -/
def handleConnect (o1 o2 : ConnectOutcome) : HandleConnectResult :=
  match o1 with
  | .success => ⟨1, false, 0, true, .noAlert⟩
  | .cancelled => ⟨1, false, 0, false, .noAlert⟩
  | .pairingMismatch =>
      let r := handleConnectRetry o2
      ⟨1 + r.connectAttempts, r.clearedStateBeforeRetry, r.settleWaitMs,
        r.connected, r.alert⟩
  | .authError => ⟨1, false, 0, false, .pairingRequiredAlert⟩
  | .otherError => ⟨1, false, 0, false, .connectionErrorAlert⟩

/-- `scanForDevices` in BleService.ts starts the device scan with
`{ allowDuplicates: false }`, unconditionally. -/
def scanForDevicesAllowDuplicates : Bool := false

/-- `startScanning` in `useBleApp`: scanning happens only in the two
scanning states, and in both it calls `scanForDevices`; the result is the
`allowDuplicates` option of the started scan, `none` when no scan starts. -/
def startScanningScan (s : BleAppState) : Option Bool :=
  if s = .scanningNoPaired ∨ s = .scanningForPaired then
    some scanForDevicesAllowDuplicates
  else none

/-- `startReconnectionScan` in the standalone single-device app variant
starts its scan with `{ allowDuplicates: true }`. -/
def startReconnectionScanAllowDuplicates : Bool := true

/-- A JSON value as delivered by the express JSON body parser to the
`/number` handler; `obj` stands for any object or array value (both coerce
to NaN for the non-numeric ones the tests use; arrays that would coerce
otherwise are out of scope of the integer model). -/
inductive JsonValue where
  | null
  | bool (b : Bool)
  | num (n : Int)
  | str (s : String)
  | obj
deriving DecidableEq, Repr

/-- Model of the JavaScript `Number()` coercion on JSON values: `null` is
0, booleans are 0/1, numbers are themselves, strings parse per
`jsStringToNumber`, plain objects are NaN. -/
def jsNumber : JsonValue → Option Int
  | .null => some 0
  | .bool b => some (if b then 1 else 0)
  | .num n => some n
  | .str s => jsStringToNumber s
  | .obj => none

/-- The response of the `/number` handler in server.js: HTTP status, the
`success` flag, the echoed `received` number, and whether a timestamp
string is included in the body. -/
structure NumberResponse where
  status : Nat
  success : Bool
  received : Option Int
  timestampIncluded : Bool
deriving DecidableEq, Repr

/-- `app.post('/number')` from server.js: 400 when the body has no
`number` field, 400 when `Number(number)` is NaN, otherwise 200 with
`{success: true, received: num, timestamp}`. -/
def postNumber (number : Option JsonValue) : NumberResponse :=
  match number with
  | none => ⟨400, false, none, false⟩
  | some v =>
      match jsNumber v with
      | none => ⟨400, false, none, false⟩
      | some num => ⟨200, true, some num, true⟩

/-- Contexts reachable by the application: the initial context, closed under
every context update the `useBleApp` hook performs.  The disconnect events
carry the guards under which the hook fires them: the involuntary-disconnect
monitor is armed by a successful connect (context in `connected`), and
`handleDisconnect` returns immediately unless a device is connected. -/
inductive Reachable : BleAppContext → Prop where
  | init : Reachable createInitialContext
  | deviceFound {ctx} (isConnecting : Bool) (d : ScanResult) :
      Reachable ctx → Reachable (handleDeviceFound ctx isConnecting d).1
  | connectSucceeded {ctx} (d : Device) :
      Reachable ctx → Reachable (transitionToConnected ctx d)
  | savePaired {ctx} (id : String) :
      Reachable ctx → Reachable (transitionToScanningForPaired ctx id)
  | clearPaired {ctx} :
      Reachable ctx → Reachable (transitionToScanningNoPaired ctx)
  | involuntaryDisconnect {ctx} (h : ctx.state = .connected) :
      Reachable ctx → Reachable (transitionToScanningForPairedOnDisconnect ctx)
  | manualDisconnect {ctx} (h : ctx.connectedDevice ≠ none) :
      Reachable ctx → Reachable (transitionToScanningNoPairedOnDisconnect ctx)
  | numberReceived {ctx} (v : String) :
      Reachable ctx → Reachable (addNumberToStream ctx v)
  | clearDevices {ctx} :
      Reachable ctx → Reachable (clearDeviceList ctx)
  | monitoringStarted {ctx} :
      Reachable ctx → Reachable { ctx with numberStream := [] }
  | connectCancelled {ctx} :
      Reachable ctx →
      Reachable { ctx with
        connectedDevice := none
        numberStream := []
        state := if ctx.pairedDeviceId.isSome then .scanningForPaired
                 else .scanningNoPaired }
  | connectFailed {ctx} :
      Reachable ctx →
      Reachable { ctx with
        connectedDevice := none
        state := if ctx.pairedDeviceId.isSome then .scanningForPaired
                 else .scanningNoPaired }

/-- The inductive invariant of reachable contexts: `pairedDeviceId` set
exactly in the two paired states, and the device list empty while
connected (it was cleared by `transitionToConnected`). -/
def contextInv (ctx : BleAppContext) : Prop :=
  (ctx.pairedDeviceId ≠ none →
    ctx.state = .scanningForPaired ∨ ctx.state = .connected) ∧
  (ctx.pairedDeviceId = none → ctx.state = .scanningNoPaired) ∧
  (ctx.state = .connected → ctx.devices = [])

theorem contextInv_addDeviceToList {c : BleAppContext} (d : ScanResult)
    (h : contextInv c) : contextInv (addDeviceToList c d) := by
  unfold addDeviceToList
  split
  · exact h
  · split
    · exact h
    · next hns _ =>
      push_neg at hns
      refine ⟨h.1, h.2.1, fun hc => ?_⟩
      simp only [] at hc
      rw [hns] at hc
      cases hc

theorem handleDeviceFound_fst (c : BleAppContext) (b : Bool) (d : ScanResult) :
    (handleDeviceFound c b d).1 = c ∨
      (handleDeviceFound c b d).1 = addDeviceToList c d := by
  unfold handleDeviceFound
  split
  · split
    · exact Or.inl rfl
    · exact Or.inl rfl
  · split
    · exact Or.inr rfl
    · exact Or.inl rfl

theorem contextInv_reachable {ctx : BleAppContext} (h : Reachable ctx) :
    contextInv ctx := by
  induction h with
  | init => simp [contextInv, createInitialContext]
  | @deviceFound c b d _ ih =>
      rcases handleDeviceFound_fst c b d with he | he <;> rw [he]
      · exact ih
      · exact contextInv_addDeviceToList d ih
  | connectSucceeded d _ ih =>
      simp [contextInv, transitionToConnected]
  | savePaired id _ ih =>
      simp [contextInv, transitionToScanningForPaired]
  | clearPaired _ ih =>
      simp [contextInv, transitionToScanningNoPaired]
  | @involuntaryDisconnect c h _ ih =>
      rcases hp : c.pairedDeviceId with _ | a
      · exact absurd h (by simp [ih.2.1 hp])
      · simp [contextInv, transitionToScanningForPairedOnDisconnect, hp]
  | manualDisconnect h _ ih =>
      simp [contextInv, transitionToScanningNoPairedOnDisconnect]
  | @numberReceived c v _ ih =>
      unfold addNumberToStream
      split
      · exact ih
      · exact ⟨ih.1, ih.2.1, ih.2.2⟩
  | @clearDevices c _ ih =>
      unfold clearDeviceList
      split
      · exact ih
      · exact ⟨ih.1, ih.2.1, fun _ => rfl⟩
  | monitoringStarted _ ih =>
      exact ⟨ih.1, ih.2.1, ih.2.2⟩
  | @connectCancelled c _ ih =>
      rcases hp : c.pairedDeviceId with _ | a <;> simp [contextInv, hp]
  | @connectFailed c _ ih =>
      rcases hp : c.pairedDeviceId with _ | a <;> simp [contextInv, hp]

theorem tryStartMonitoring_starts (outcomes : Nat → ReadOutcome) (k : Nat) :
    (tryStartMonitoring outcomes k).monitoringStarted = true ∧
      (tryStartMonitoring outcomes k).errorSurfaced = false := by
  rw [tryStartMonitoring]
  rcases h : outcomes k with _ | _ | _
  · exact ⟨rfl, rfl⟩
  · by_cases hk : k < 10
    · simpa [hk] using tryStartMonitoring_starts outcomes (k + 1)
    · simp [hk]
  · exact ⟨rfl, rfl⟩
termination_by 10 - k
decreasing_by omega

theorem tryStartMonitoring_allAuthPending (outcomes : Nat → ReadOutcome)
    (hall : ∀ i, i ≤ 10 → outcomes i = .authPending) (k : Nat) (hk : k ≤ 10) :
    tryStartMonitoring outcomes k = ⟨11, 5000, true, false⟩ := by
  rw [tryStartMonitoring, hall k hk]
  by_cases hlt : k < 10
  · simpa [hlt] using
      tryStartMonitoring_allAuthPending outcomes hall (k + 1) (by omega)
  · have hke : k = 10 := by omega
    subst hke
    norm_num
termination_by 10 - k
decreasing_by omega

/-- C1: in every reachable context, `pairedDeviceId` set implies the state
is `scanning-for-paired` or `connected`, and `pairedDeviceId` unset implies
the state is `scanning-no-paired`; the correspondence is preserved from the
initial context by every transition the application performs. -/
theorem reachable_pairedIdentity_state_correspondence
    (ctx : BleAppContext) (h : Reachable ctx) :
    (ctx.pairedDeviceId ≠ none →
      ctx.state = .scanningForPaired ∨ ctx.state = .connected) ∧
    (ctx.pairedDeviceId = none → ctx.state = .scanningNoPaired) :=
  ⟨(contextInv_reachable h).1, (contextInv_reachable h).2.1⟩

theorem reachable_pairedIdentity_state_correspondence_witness :
    (createInitialContext.pairedDeviceId ≠ none →
      createInitialContext.state = .scanningForPaired ∨
        createInitialContext.state = .connected) ∧
    (createInitialContext.pairedDeviceId = none →
      createInitialContext.state = .scanningNoPaired) :=
  reachable_pairedIdentity_state_correspondence createInitialContext .init

/-- C2: an involuntary disconnect while connected moves the context to
`scanning-for-paired`, clears the connected device, empties the number
stream, and leaves `pairedDeviceId` at the previously connected peer. -/
theorem involuntaryDisconnect_keeps_pairedIdentity
    (ctx : BleAppContext) (p : String)
    (_hs : ctx.state = .connected) (hp : ctx.pairedDeviceId = some p) :
    (transitionToScanningForPairedOnDisconnect ctx).state = .scanningForPaired ∧
    (transitionToScanningForPairedOnDisconnect ctx).connectedDevice = none ∧
    (transitionToScanningForPairedOnDisconnect ctx).numberStream = [] ∧
    (transitionToScanningForPairedOnDisconnect ctx).pairedDeviceId = some p := by
  simp [transitionToScanningForPairedOnDisconnect, hp]

theorem involuntaryDisconnect_keeps_pairedIdentity_witness :
    (transitionToScanningForPairedOnDisconnect
        (transitionToConnected createInitialContext ⟨"P1"⟩)).state =
      .scanningForPaired ∧
    (transitionToScanningForPairedOnDisconnect
        (transitionToConnected createInitialContext ⟨"P1"⟩)).connectedDevice =
      none ∧
    (transitionToScanningForPairedOnDisconnect
        (transitionToConnected createInitialContext ⟨"P1"⟩)).numberStream = [] ∧
    (transitionToScanningForPairedOnDisconnect
        (transitionToConnected createInitialContext ⟨"P1"⟩)).pairedDeviceId =
      some "P1" :=
  involuntaryDisconnect_keeps_pairedIdentity
    (transitionToConnected createInitialContext ⟨"P1"⟩) "P1" rfl rfl

/-- C3: a manual disconnect while connected moves the context to
`scanning-no-paired`, clears the connected device, the number stream and
`pairedDeviceId`, and the visible device list is empty afterwards (it was
cleared when the connection was established). -/
theorem manualDisconnect_clears_session_and_identity
    (ctx : BleAppContext) (hr : Reachable ctx) (hs : ctx.state = .connected) :
    (transitionToScanningNoPairedOnDisconnect ctx).state = .scanningNoPaired ∧
    (transitionToScanningNoPairedOnDisconnect ctx).connectedDevice = none ∧
    (transitionToScanningNoPairedOnDisconnect ctx).numberStream = [] ∧
    (transitionToScanningNoPairedOnDisconnect ctx).pairedDeviceId = none ∧
    (transitionToScanningNoPairedOnDisconnect ctx).devices = [] := by
  refine ⟨rfl, rfl, rfl, rfl, ?_⟩
  have hd : ctx.devices = [] := (contextInv_reachable hr).2.2 hs
  simpa [transitionToScanningNoPairedOnDisconnect] using hd

theorem manualDisconnect_clears_session_and_identity_witness :
    (transitionToScanningNoPairedOnDisconnect
        (transitionToConnected createInitialContext ⟨"P1"⟩)).state =
      .scanningNoPaired ∧
    (transitionToScanningNoPairedOnDisconnect
        (transitionToConnected createInitialContext ⟨"P1"⟩)).connectedDevice =
      none ∧
    (transitionToScanningNoPairedOnDisconnect
        (transitionToConnected createInitialContext ⟨"P1"⟩)).numberStream = [] ∧
    (transitionToScanningNoPairedOnDisconnect
        (transitionToConnected createInitialContext ⟨"P1"⟩)).pairedDeviceId =
      none ∧
    (transitionToScanningNoPairedOnDisconnect
        (transitionToConnected createInitialContext ⟨"P1"⟩)).devices = [] :=
  manualDisconnect_clears_session_and_identity
    (transitionToConnected createInitialContext ⟨"P1"⟩)
    (.connectSucceeded ⟨"P1"⟩ .init) rfl

/-- C4: in `scanning-for-paired` with `pairedDeviceId = some p`, a
discovery of a device whose id differs from `p` changes nothing and
requests no connect; only a discovery whose id equals `p` stops the scan
and triggers the auto-connect (when no connect is in flight). -/
theorem reconnecting_ignores_other_peers
    (ctx : BleAppContext) (isConnecting : Bool) (d : ScanResult) (p : String)
    (hs : ctx.state = .scanningForPaired) (hp : ctx.pairedDeviceId = some p) :
    (d.id ≠ p → handleDeviceFound ctx isConnecting d = (ctx, .noAction)) ∧
    (d.id = p → isConnecting = false →
      handleDeviceFound ctx isConnecting d = (ctx, .stopScanAndConnect d.id)) := by
  constructor
  · intro hne
    unfold handleDeviceFound
    rw [if_neg, if_neg]
    · rw [hs]
      simp
    · rintro ⟨-, hmatch⟩
      rw [hp] at hmatch
      exact hne (by injection hmatch with h; exact h.symm)
  · intro heq hb
    unfold handleDeviceFound
    rw [if_pos ⟨hs, by rw [hp, heq]⟩, hb]
    simp

theorem reconnecting_ignores_other_peers_witness :
    (("P2" : String) ≠ "P1" →
      handleDeviceFound
        { createInitialContext with
            state := .scanningForPaired, pairedDeviceId := some "P1" }
        false ⟨"P2", none, none, none⟩ =
      ({ createInitialContext with
            state := .scanningForPaired, pairedDeviceId := some "P1" },
        .noAction)) ∧
    (("P2" : String) = "P1" → false = false →
      handleDeviceFound
        { createInitialContext with
            state := .scanningForPaired, pairedDeviceId := some "P1" }
        false ⟨"P2", none, none, none⟩ =
      ({ createInitialContext with
            state := .scanningForPaired, pairedDeviceId := some "P1" },
        .stopScanAndConnect "P2")) :=
  reconnecting_ignores_other_peers
    { createInitialContext with
        state := .scanningForPaired, pairedDeviceId := some "P1" }
    false ⟨"P2", none, none, none⟩ "P1" rfl rfl

/-- C5: in `connected`, inserting a value puts it at index 0 and truncates
to 50 entries, so the buffer never exceeds 50 and a full buffer loses its
oldest (last) element; in any other state the insertion is a no-op. -/
theorem streamBuffer_bounded_insert (ctx : BleAppContext) (v : String) :
    (ctx.state = .connected →
      (addNumberToStream ctx v).numberStream = (v :: ctx.numberStream).take 50 ∧
      (addNumberToStream ctx v).numberStream.head? = some v ∧
      (addNumberToStream ctx v).numberStream.length ≤ 50 ∧
      (ctx.numberStream.length = 50 →
        (addNumberToStream ctx v).numberStream = v :: ctx.numberStream.take 49)) ∧
    (ctx.state ≠ .connected → addNumberToStream ctx v = ctx) := by
  constructor
  · intro hs
    unfold addNumberToStream
    rw [if_neg (by simp [hs])]
    refine ⟨rfl, ?_, ?_, fun _ => ?_⟩
    · simp [List.take_succ_cons]
    · simp only [List.length_take]
      omega
    · simp [List.take_succ_cons]
  · intro hs
    unfold addNumberToStream
    rw [if_pos hs]

theorem streamBuffer_bounded_insert_witness :
    ((transitionToConnected createInitialContext ⟨"P1"⟩).state = .connected →
      (addNumberToStream (transitionToConnected createInitialContext ⟨"P1"⟩)
          "7").numberStream =
        ("7" :: (transitionToConnected createInitialContext
            ⟨"P1"⟩).numberStream).take 50 ∧
      (addNumberToStream (transitionToConnected createInitialContext ⟨"P1"⟩)
          "7").numberStream.head? = some "7" ∧
      (addNumberToStream (transitionToConnected createInitialContext ⟨"P1"⟩)
          "7").numberStream.length ≤ 50 ∧
      ((transitionToConnected createInitialContext
          ⟨"P1"⟩).numberStream.length = 50 →
        (addNumberToStream (transitionToConnected createInitialContext ⟨"P1"⟩)
            "7").numberStream =
          "7" :: (transitionToConnected createInitialContext
              ⟨"P1"⟩).numberStream.take 49)) ∧
    ((transitionToConnected createInitialContext ⟨"P1"⟩).state ≠ .connected →
      addNumberToStream (transitionToConnected createInitialContext ⟨"P1"⟩)
          "7" =
        transitionToConnected createInitialContext ⟨"P1"⟩) :=
  streamBuffer_bounded_insert
    (transitionToConnected createInitialContext ⟨"P1"⟩) "7"

/-- C6: for a decoded numeric value received with an endpoint configured,
the value is POSTed to the relay exactly when strictly more than 1000 ms
elapsed since the recorded last-send time and dropped when at most 1000 ms
elapsed, while in both cases the value is pushed to index 0 of the local
number stream — the throttle affects only the relay. -/
theorem forward_throttle_relay_only
    (ctx : BleAppContext) (st : ThrottleState) (now : Int)
    (ngrokUrl : Option String) (value : String) (responseOk : Bool) (n : Int)
    (hs : ctx.state = .connected) (hu : ngrokUrl ≠ none)
    (hn : jsStringToNumber value = some n) :
    (1000 < now - st.lastPacketSentTime →
      (onNotificationValue ctx st now ngrokUrl value responseOk).2.2 = some n) ∧
    (now - st.lastPacketSentTime ≤ 1000 →
      (onNotificationValue ctx st now ngrokUrl value responseOk).2.2 = none) ∧
    (onNotificationValue ctx st now ngrokUrl value
        responseOk).1.numberStream.head? = some value := by
  refine ⟨fun ht => ?_, fun ht => ?_, ?_⟩
  · unfold onNotificationValue forwardNumberToNgrok
    rw [if_pos ⟨ht, hu⟩, hn]
    by_cases hok : responseOk <;> simp [hok]
  · unfold onNotificationValue forwardNumberToNgrok
    rw [if_neg]
    rintro ⟨ht2, -⟩
    omega
  · unfold onNotificationValue addNumberToStream
    rw [if_neg (by simp [hs])]
    simp [List.take_succ_cons]

theorem forward_throttle_relay_only_witness :
    (1000 < (1100 : Int) - (⟨0⟩ : ThrottleState).lastPacketSentTime →
      (onNotificationValue
          (transitionToConnected createInitialContext ⟨"P1"⟩) ⟨0⟩ 1100
          (some "https://relay") "42" true).2.2 = some 42) ∧
    ((1100 : Int) - (⟨0⟩ : ThrottleState).lastPacketSentTime ≤ 1000 →
      (onNotificationValue
          (transitionToConnected createInitialContext ⟨"P1"⟩) ⟨0⟩ 1100
          (some "https://relay") "42" true).2.2 = none) ∧
    (onNotificationValue
        (transitionToConnected createInitialContext ⟨"P1"⟩) ⟨0⟩ 1100
        (some "https://relay") "42" true).1.numberStream.head? = some "42" :=
  forward_throttle_relay_only
    (transitionToConnected createInitialContext ⟨"P1"⟩) ⟨0⟩ 1100
    (some "https://relay") "42" true 42 rfl (by simp) (by decide)

/-- C7: if every pairing-verification read up to retry count 10 fails with
authorization pending, the loop performs 11 reads with 10 retries at 500 ms
each and then starts monitoring without surfacing an error; and for any
outcome sequence, the loop always ends with monitoring started and no
error surfaced. -/
theorem pairing_verification_retry_then_proceed :
    (∀ outcomes : Nat → ReadOutcome,
      (∀ i, i ≤ 10 → outcomes i = .authPending) →
      tryStartMonitoring outcomes 0 =
        ⟨11, 5000, true, false⟩) ∧
    (∀ (outcomes : Nat → ReadOutcome) (k : Nat),
      (tryStartMonitoring outcomes k).monitoringStarted = true ∧
      (tryStartMonitoring outcomes k).errorSurfaced = false) :=
  ⟨fun outcomes hall =>
    tryStartMonitoring_allAuthPending outcomes hall 0 (by omega),
   tryStartMonitoring_starts⟩

theorem pairing_verification_retry_then_proceed_witness :
    tryStartMonitoring (fun _ => .authPending) 0 = ⟨11, 5000, true, false⟩ :=
  pairing_verification_retry_then_proceed.1
    (fun _ => .authPending) (fun _ _ => rfl)

/-- C8: a pairing-mismatch failure of the first connect sequence clears
local connection state, waits the 1000 ms settle interval, and runs the
sequence exactly once more (two attempts total); the terminal
pairing-mismatch alert offering manual remediation is surfaced exactly
when the retry fails with a pairing mismatch too, a successful retry
surfaces nothing, and no pair of outcomes ever produces more than two
attempts. -/
theorem pairingMismatch_single_auto_retry :
    (∀ o2 : ConnectOutcome,
      (handleConnect .pairingMismatch o2).connectAttempts = 2 ∧
      (handleConnect .pairingMismatch o2).clearedStateBeforeRetry = true ∧
      (handleConnect .pairingMismatch o2).settleWaitMs = 1000) ∧
    (∀ o2 : ConnectOutcome,
      (handleConnect .pairingMismatch o2).alert = .pairingMismatchAlert ↔
        o2 = .pairingMismatch) ∧
    ((handleConnect .pairingMismatch .success).connected = true ∧
      (handleConnect .pairingMismatch .success).alert = .noAlert) ∧
    (∀ o1 o2 : ConnectOutcome, (handleConnect o1 o2).connectAttempts ≤ 2) := by
  refine ⟨fun o2 => ?_, fun o2 => ?_, by decide, fun o1 o2 => ?_⟩
  · cases o2 <;> simp [handleConnect, handleConnectRetry]
  · cases o2 <;> simp [handleConnect, handleConnectRetry]
  · cases o1 <;> cases o2 <;> simp [handleConnect, handleConnectRetry]

theorem pairingMismatch_single_auto_retry_witness :
    (handleConnect .pairingMismatch .success).connectAttempts = 2 ∧
    (handleConnect .pairingMismatch .success).clearedStateBeforeRetry = true ∧
    (handleConnect .pairingMismatch .success).settleWaitMs = 1000 :=
  pairingMismatch_single_auto_retry.1 .success

/-- C9 counterexample: the state-machine app's targeted scan
(`scanning-for-paired`) is not started with duplicates allowed — the claim
that it is fails on the code, which passes `allowDuplicates: false` to the
scan in both scanning states. -/
theorem targeted_scan_duplicates_counterexample :
    ¬ startScanningScan .scanningForPaired = some true := by
  decide

/-- C9 (amended): the scan started in `scanning-for-paired` carries
`allowDuplicates: false` exactly as in `scanning-no-paired` (duplicate
advertisements are suppressed in both modes of the state-machine app);
duplicate advertisements are allowed only by the standalone reconnection
variant's `startReconnectionScan`. -/
theorem targeted_scan_allowDuplicates_false :
    startScanningScan .scanningForPaired = some false ∧
    startScanningScan .scanningNoPaired = some false ∧
    scanForDevicesAllowDuplicates = false ∧
    startReconnectionScanAllowDuplicates = true := by
  decide

/-- C10: the `/number` handler responds 400 exactly when the body's
`number` field is absent or not coercible to a number by `Number()`;
otherwise it responds 200 with `success: true`, the parsed number echoed
in `received`, and a timestamp — and every request gets one of these two
controlled responses. -/
theorem postNumber_status_correct (number : Option JsonValue) :
    ((postNumber number).status = 400 ↔
      number = none ∨ ∃ v, number = some v ∧ jsNumber v = none) ∧
    (∀ v num, number = some v → jsNumber v = some num →
      postNumber number = ⟨200, true, some num, true⟩) ∧
    ((postNumber number).status = 400 ∨ (postNumber number).status = 200) := by
  rcases number with _ | v
  · refine ⟨by simp [postNumber], by simp, Or.inl rfl⟩
  · rcases hv : jsNumber v with _ | num
    · refine ⟨?_, ?_, ?_⟩
      · simp [postNumber, hv]
      · intro v2 num heq hn2
        injection heq with heq
        subst heq
        rw [hv] at hn2
        cases hn2
      · rw [postNumber, hv]
        exact Or.inl rfl
    · refine ⟨?_, ?_, ?_⟩
      · rw [postNumber, hv]
        simp [hv]
      · rintro v2 num2 heq hn2
        injection heq with heq
        subst heq
        rw [hv] at hn2
        injection hn2 with hn2
        subst hn2
        rw [postNumber, hv]
      · rw [postNumber, hv]
        exact Or.inr rfl

theorem postNumber_status_correct_witness :
    ((postNumber (some (.str "12"))).status = 400 ↔
      some (JsonValue.str "12") = none ∨
        ∃ v, some (JsonValue.str "12") = some v ∧ jsNumber v = none) ∧
    (∀ v num, some (JsonValue.str "12") = some v → jsNumber v = some num →
      postNumber (some (.str "12")) = ⟨200, true, some num, true⟩) ∧
    ((postNumber (some (.str "12"))).status = 400 ∨
      (postNumber (some (.str "12"))).status = 200) :=
  postNumber_status_correct (some (.str "12"))

end BleApp

